import Mathlib

/-
  Verification development for the hybrid storage consistency and
  backup/restore engine (src-tauri): a shallow embedding of the connection
  guard (database.rs), the media store (file_manager.rs), the hybrid avatar
  manager (hybrid_avatar.rs), the logical backup (database_backup.rs) and the
  archive backup (hybrid_backup.rs), with theorems settling the
  specification claims C1 to C10.
-/

namespace HybridStorage

/-- On-disk state of the database file: absent, or present with a byte size. -/
inductive DbFile
  | absent
  | present (size : Nat)
deriving DecidableEq, Repr

/-- Database-layer errors, mirroring the rusqlite SqliteFailure values built
    in database.rs: cantOpen stands for SQLITE_CANTOPEN plus the attached
    message, sqlErr for SQLITE_ERROR plus the attached message. -/
inductive DbError
  | cantOpen (msg : String)
  | sqlErr (msg : String)
deriving DecidableEq, Repr

/-- An open connection, recording the open flags it was created with. -/
structure Conn where
  readWrite : Bool
  create : Bool
  readOnly : Bool
deriving DecidableEq, Repr

/-- One row of the users table. Only the columns that the verified
    operations read or write are carried: the row id and the four avatar
    linkage columns; the remaining columns are neither read nor written by
    the operations modelled here. -/
structure UserRow where
  id : Int
  avatar_path : Option String
  avatar_updated_at : Option String
  avatar_mime : Option String
  avatar_size : Option Int
deriving DecidableEq, Repr

/-- State of the live database: the on-disk file, the set of tables its
    schema holds, and the rows of the users table. A query against a table
    that is not in the schema fails, as in SQLite. -/
structure DbState where
  file : DbFile
  tables : List String
  users : List UserRow
deriving DecidableEq, Repr

/-- Message attached to the guarded rejection when the file is absent
    (database.rs, get_connection_safe). -/
def notInitMsg : String :=
  "Database not initialized. Please complete app initialization first."

/-- Message attached to the guarded rejection when the file is empty
    (database.rs, get_connection_safe). -/
def emptyDbMsg : String :=
  "Database file is empty. Please complete app initialization first."

/-- The not-initialized failure shape of the connection guard:
    SQLITE_CANTOPEN carrying one of the two app-initialization messages.
    Both guarded-mode rejections in database.rs have this shape. -/
def DbError.isNotInitErr : DbError → Bool
  | DbError.cantOpen msg => msg = notInitMsg || msg = emptyDbMsg
  | DbError.sqlErr _ => false

/-- get_connection (database.rs 68-91): Connection.open with the default
    flags (read-write plus create). When the file is absent, the open
    creates a fresh zero-length database file with no tables and no rows;
    when present, it opens it unchanged. Session pragmas do not affect the
    modelled state. -/
def get_connection (s : DbState) : DbState × Except DbError Conn :=
  match s.file with
  | DbFile.absent =>
      ({ file := DbFile.present 0, tables := [], users := [] },
       Except.ok { readWrite := true, create := true, readOnly := false })
  | DbFile.present _ =>
      (s, Except.ok { readWrite := true, create := true, readOnly := false })

/-- get_connection_safe (database.rs 95-140), the Guarded open: reject when
    the file is absent; when the file is present but zero bytes, remove it
    (removing the file removes any schema with it) and reject; otherwise
    open with SQLITE_OPEN_READ_WRITE only, without the create flag. -/
def get_connection_safe (s : DbState) : DbState × Except DbError Conn :=
  match s.file with
  | DbFile.absent =>
      (s, Except.error (DbError.cantOpen notInitMsg))
  | DbFile.present 0 =>
      ({ file := DbFile.absent, tables := [], users := [] },
       Except.error (DbError.cantOpen emptyDbMsg))
  | DbFile.present (_ + 1) =>
      (s, Except.ok { readWrite := true, create := false, readOnly := false })

/-- C3: the Guarded open fails with a not-initialized error when the
    database file is absent (leaving the state unchanged); when the file
    exists but is zero bytes it deletes the file and fails with a
    not-initialized error; otherwise it opens the file read-write without
    the create flag and succeeds. -/
theorem get_connection_safe_guarded (s : DbState) :
    (s.file = DbFile.absent →
      get_connection_safe s = (s, Except.error (DbError.cantOpen notInitMsg)) ∧
      (DbError.cantOpen notInitMsg).isNotInitErr = true) ∧
    (s.file = DbFile.present 0 →
      get_connection_safe s =
        ({ file := DbFile.absent, tables := [], users := [] },
         Except.error (DbError.cantOpen emptyDbMsg)) ∧
      (DbError.cantOpen emptyDbMsg).isNotInitErr = true) ∧
    (∀ n : Nat, s.file = DbFile.present (n + 1) →
      get_connection_safe s =
        (s, Except.ok { readWrite := true, create := false, readOnly := false })) := by
  obtain ⟨f, tabs, users⟩ := s
  refine ⟨?_, ?_, ?_⟩
  · intro h
    cases h
    exact ⟨rfl, by decide⟩
  · intro h
    cases h
    exact ⟨rfl, by decide⟩
  · intro n h
    cases h
    rfl

/-- Witness for C3: the three guarded cases evaluated at concrete states. -/
theorem get_connection_safe_guarded_witness :
    ((DbState.mk DbFile.absent [] []).file = DbFile.absent ∧
      get_connection_safe (DbState.mk DbFile.absent [] []) =
        (DbState.mk DbFile.absent [] [],
         Except.error (DbError.cantOpen notInitMsg))) ∧
    ((DbState.mk (DbFile.present 0) [] []).file = DbFile.present 0 ∧
      get_connection_safe (DbState.mk (DbFile.present 0) [] []) =
        (DbState.mk DbFile.absent [] [],
         Except.error (DbError.cantOpen emptyDbMsg))) ∧
    ((DbState.mk (DbFile.present 4) ["users"] []).file = DbFile.present (3 + 1) ∧
      get_connection_safe (DbState.mk (DbFile.present 4) ["users"] []) =
        (DbState.mk (DbFile.present 4) ["users"] [],
         Except.ok { readWrite := true, create := false, readOnly := false })) :=
  ⟨⟨rfl, ((get_connection_safe_guarded (DbState.mk DbFile.absent [] [])).1 rfl).1⟩,
   ⟨rfl, ((get_connection_safe_guarded (DbState.mk (DbFile.present 0) [] [])).2.1 rfl).1⟩,
   ⟨rfl, (get_connection_safe_guarded (DbState.mk (DbFile.present 4) ["users"] [])).2.2 3 rfl⟩⟩

/-! ## Media store (file_manager.rs) -/

/-- The filesystem tree under the media root, for a symlink-free
    installation: the regular files (media-root-relative path and bytes) and
    the directories (media-root-relative paths). -/
structure MediaFs where
  files : List (String × List Nat)
  dirs : List String
deriving DecidableEq, Repr

/-- startsList pat s: s begins with the character sequence pat. -/
def startsList : List Char → List Char → Bool
  | [], _ => true
  | _ :: _, [] => false
  | a :: pat, b :: s => a == b && startsList pat s

/-- containsSeq pat s: pat occurs as a contiguous subsequence of s. This is
    the check behind the Rust str contains calls on the two-dot pattern. -/
def containsSeq (pat : List Char) : List Char → Bool
  | [] => pat.isEmpty
  | c :: rest => startsList pat (c :: rest) || containsSeq pat rest

/-- The path-traversal test used by file_manager.rs and hybrid_avatar.rs:
    the path string contains two consecutive dots anywhere. -/
def containsDotDot (p : String) : Bool :=
  containsSeq [Char.ofNat 46, Char.ofNat 46] p.toList

/-- A path contains a parent-directory segment: its character list splits as
    pre ++ ".." ++ post where pre is empty or ends with a slash and post is
    empty or starts with a slash. This is the specification-level reading of
    a ".." path component. -/
def hasParentSegment (p : String) : Prop :=
  ∃ pre post : List Char,
    p.toList = pre ++ (Char.ofNat 46 :: Char.ofNat 46 :: post) ∧
    (pre = [] ∨ ∃ pre2, pre = pre2 ++ [Char.ofNat 47]) ∧
    (post = [] ∨ ∃ post2, post = Char.ofNat 47 :: post2)

/-- A path exists on disk when it names a regular file or a directory. -/
def MediaFs.onDisk (fs : MediaFs) (p : String) : Bool :=
  fs.files.any (fun f => f.1 == p) || fs.dirs.contains p

/-- delete_avatar_file (file_manager.rs 149-198): reject the empty path and
    any path containing two consecutive dots; then (canonicalization guard:
    for a symlink-free tree a traversal-free relative path joined under the
    media root canonicalizes below the root, so the prefix guard never
    rejects these inputs) a non-existent path is a no-op success, a
    directory is an error, and otherwise the file is removed. -/
def FileManager.delete_avatar_file (fs : MediaFs) (avatar_path : String) :
    MediaFs × Except String Unit :=
  if avatar_path = "" then
    (fs, Except.error "Avatar path is empty")
  else if containsDotDot avatar_path then
    (fs, Except.error "Invalid avatar path: path traversal attempt detected")
  else if fs.onDisk avatar_path = false then
    (fs, Except.ok ())
  else if fs.dirs.contains avatar_path then
    (fs, Except.error ("Cannot delete directory: " ++ avatar_path))
  else
    ({ fs with files := fs.files.filter (fun f => !(f.1 == avatar_path)) },
     Except.ok ())

/-- The extension table of save_avatar_file / save_high_rank_avatar_file,
    with the non-failing jpg fallback. -/
def extensionFor (mime_type : String) : String :=
  if mime_type = "image/jpeg" then "jpg"
  else if mime_type = "image/png" then "png"
  else if mime_type = "image/webp" then "webp"
  else if mime_type = "image/gif" then "gif"
  else "jpg"

/-- save_avatar_file (file_manager.rs 112-137): write the bytes to a fresh
    deterministically named file in the avatars directory and return the
    media-root-relative path. The unix timestamp is passed in. -/
def FileManager.save_avatar_file (fs : MediaFs) (user_id : Int)
    (file_data : List Nat) (mime_type : String) (now : Nat) : MediaFs × String :=
  let rel := "avatars/avatar_" ++ toString user_id ++ "_" ++ toString now ++
    "." ++ extensionFor mime_type
  ({ fs with files := fs.files ++ [(rel, file_data)] }, rel)

/-- cleanup_orphaned_files (file_manager.rs 278-303): visit the regular
    files directly under the avatars directory, given as their
    media-root-relative paths in directory order; every file whose relative
    path is not in valid_paths is removed and counted. Returns the surviving
    entries and the deleted count; removal is modelled as succeeding. -/
def FileManager.cleanup_orphaned_files (entries : List String)
    (valid_paths : List String) : List String × Nat :=
  match entries with
  | [] => ([], 0)
  | p :: rest =>
      let r := FileManager.cleanup_orphaned_files rest valid_paths
      if valid_paths.contains p then (p :: r.1, r.2) else (r.1, r.2 + 1)

/-- get_avatar_file_data (hybrid_avatar.rs 200-233): reject the empty path
    and any path containing two consecutive dots before any filesystem
    access; then resolve the path under the media root and read it, turning
    a missing path or a directory into an error. -/
def HybridAvatarManager.get_avatar_file_data (fs : MediaFs)
    (avatar_path : String) : Except String (List Nat) :=
  if avatar_path = "" then Except.error "Avatar path is empty"
  else if containsDotDot avatar_path then Except.error "Invalid avatar path"
  else
    match fs.files.find? (fun f => f.1 == avatar_path) with
    | some f => Except.ok f.2
    | none =>
        if fs.dirs.contains avatar_path then
          Except.error ("Failed to read avatar file: " ++ avatar_path)
        else
          Except.error ("Avatar file not accessible: Avatar file not found: " ++ avatar_path)

/-- A parent-directory segment makes the two-consecutive-dots test fire. -/
theorem containsDotDot_of_parentSegment (p : String) (h : hasParentSegment p) :
    containsDotDot p = true := by
  obtain ⟨pre, post, hsplit, -, -⟩ := h
  unfold containsDotDot
  rw [hsplit]
  clear hsplit
  induction pre with
  | nil => simp [containsSeq, startsList]
  | cons c pre ih => simp [containsSeq, ih]

/-- Survivors of the sweep are exactly the entries on the valid list. -/
theorem cleanup_fst (entries valid : List String) :
    (FileManager.cleanup_orphaned_files entries valid).1 =
      entries.filter (fun p => valid.contains p) := by
  induction entries with
  | nil => rfl
  | cons p rest ih =>
      by_cases h : p ∈ valid <;>
        simp [FileManager.cleanup_orphaned_files, h, List.filter_cons, ih]

/-- The deleted count of the sweep is the number of entries off the valid
    list. -/
theorem cleanup_snd (entries valid : List String) :
    (FileManager.cleanup_orphaned_files entries valid).2 =
      (entries.filter (fun p => !(valid.contains p))).length := by
  induction entries with
  | nil => rfl
  | cons p rest ih =>
      by_cases h : p ∈ valid <;>
        simp [FileManager.cleanup_orphaned_files, h, List.filter_cons, ih]

/-- C6: the orphan sweep deletes exactly the files whose media-root-relative
    path is not in the valid-path set, never deletes a file whose path is in
    the set, and the surviving set and deleted count do not depend on the
    order the files are visited. -/
theorem cleanup_orphaned_files_exact (entries valid entries2 : List String)
    (hperm : entries.Perm entries2) :
    (FileManager.cleanup_orphaned_files entries valid).1 =
      entries.filter (fun p => valid.contains p) ∧
    (FileManager.cleanup_orphaned_files entries valid).2 =
      (entries.filter (fun p => !(valid.contains p))).length ∧
    entries.all (fun p => !(valid.contains p) ||
      (FileManager.cleanup_orphaned_files entries valid).1.contains p) = true ∧
    ((FileManager.cleanup_orphaned_files entries valid).1).Perm
      ((FileManager.cleanup_orphaned_files entries2 valid).1) ∧
    (FileManager.cleanup_orphaned_files entries valid).2 =
      (FileManager.cleanup_orphaned_files entries2 valid).2 := by
  refine ⟨cleanup_fst entries valid, cleanup_snd entries valid, ?_, ?_, ?_⟩
  · rw [cleanup_fst]
    rw [List.all_eq_true]
    intro p hp
    by_cases h : p ∈ valid
    · simp [List.mem_filter, hp, h]
    · simp [h]
  · rw [cleanup_fst, cleanup_fst]
    exact hperm.filter _
  · rw [cleanup_snd, cleanup_snd]
    exact ((hperm.filter _).length_eq)

/-- Witness for C6: a two-file avatars directory swept in both orders
    against a one-element valid set. -/
theorem cleanup_orphaned_files_exact_witness :
    (["avatars/a.jpg", "avatars/b.jpg"].Perm ["avatars/b.jpg", "avatars/a.jpg"]) ∧
    ((FileManager.cleanup_orphaned_files ["avatars/a.jpg", "avatars/b.jpg"]
        ["avatars/a.jpg"]).1 =
      ["avatars/a.jpg", "avatars/b.jpg"].filter
        (fun p => (["avatars/a.jpg"] : List String).contains p) ∧
    (FileManager.cleanup_orphaned_files ["avatars/a.jpg", "avatars/b.jpg"]
        ["avatars/a.jpg"]).2 =
      (["avatars/a.jpg", "avatars/b.jpg"].filter
        (fun p => !((["avatars/a.jpg"] : List String).contains p))).length ∧
    (["avatars/a.jpg", "avatars/b.jpg"] : List String).all
      (fun p => !((["avatars/a.jpg"] : List String).contains p) ||
        (FileManager.cleanup_orphaned_files ["avatars/a.jpg", "avatars/b.jpg"]
          ["avatars/a.jpg"]).1.contains p) = true ∧
    ((FileManager.cleanup_orphaned_files ["avatars/a.jpg", "avatars/b.jpg"]
        ["avatars/a.jpg"]).1).Perm
      ((FileManager.cleanup_orphaned_files ["avatars/b.jpg", "avatars/a.jpg"]
        ["avatars/a.jpg"]).1) ∧
    (FileManager.cleanup_orphaned_files ["avatars/a.jpg", "avatars/b.jpg"]
        ["avatars/a.jpg"]).2 =
      (FileManager.cleanup_orphaned_files ["avatars/b.jpg", "avatars/a.jpg"]
        ["avatars/a.jpg"]).2) :=
  ⟨by decide,
   cleanup_orphaned_files_exact ["avatars/a.jpg", "avatars/b.jpg"] ["avatars/a.jpg"]
     ["avatars/b.jpg", "avatars/a.jpg"] (by decide)⟩

/-- C5: delete_avatar_file errors on the empty path and on every path
    containing a parent-directory segment; on a validated path absent from
    disk it succeeds without changing anything; on a path naming a
    directory it errors. -/
theorem delete_avatar_file_guard (fs : MediaFs) (p : String) :
    (FileManager.delete_avatar_file fs "" =
      (fs, Except.error "Avatar path is empty")) ∧
    (hasParentSegment p →
      FileManager.delete_avatar_file fs p =
        (fs, Except.error "Invalid avatar path: path traversal attempt detected")) ∧
    (p ≠ "" → containsDotDot p = false → fs.onDisk p = false →
      FileManager.delete_avatar_file fs p = (fs, Except.ok ())) ∧
    (p ≠ "" → containsDotDot p = false → fs.dirs.contains p = true →
      (FileManager.delete_avatar_file fs p).2 =
        Except.error ("Cannot delete directory: " ++ p)) := by
  refine ⟨by simp [FileManager.delete_avatar_file], ?_, ?_, ?_⟩
  · intro hp
    have hne : p ≠ "" := by
      intro h
      subst h
      obtain ⟨pre, post, hsplit, -, -⟩ := hp
      simp at hsplit
    have hdd := containsDotDot_of_parentSegment p hp
    simp [FileManager.delete_avatar_file, hne, hdd]
  · intro h1 h2 h3
    simp [FileManager.delete_avatar_file, h1, h2, h3]
  · intro h1 h2 h3
    have hm : p ∈ fs.dirs := by simpa using h3
    have hdisk : fs.onDisk p = true := by
      unfold MediaFs.onDisk
      simp [hm]
    simp [FileManager.delete_avatar_file, h1, h2, hdisk, hm]

/-- Witness for C5: the four guard cases evaluated on a concrete media
    tree. -/
theorem delete_avatar_file_guard_witness :
    (FileManager.delete_avatar_file (MediaFs.mk [("avatars/a.jpg", [7])] ["avatars"]) "" =
      (MediaFs.mk [("avatars/a.jpg", [7])] ["avatars"],
       Except.error "Avatar path is empty")) ∧
    (FileManager.delete_avatar_file (MediaFs.mk [("avatars/a.jpg", [7])] ["avatars"])
        "avatars/../x" =
      (MediaFs.mk [("avatars/a.jpg", [7])] ["avatars"],
       Except.error "Invalid avatar path: path traversal attempt detected")) ∧
    (FileManager.delete_avatar_file (MediaFs.mk [("avatars/a.jpg", [7])] ["avatars"])
        "avatars/b.jpg" =
      (MediaFs.mk [("avatars/a.jpg", [7])] ["avatars"], Except.ok ())) ∧
    ((FileManager.delete_avatar_file (MediaFs.mk [("avatars/a.jpg", [7])] ["avatars"])
        "avatars").2 =
      Except.error ("Cannot delete directory: " ++ "avatars")) :=
  ⟨(delete_avatar_file_guard (MediaFs.mk [("avatars/a.jpg", [7])] ["avatars"]) "x").1,
   (delete_avatar_file_guard (MediaFs.mk [("avatars/a.jpg", [7])] ["avatars"])
      "avatars/../x").2.1
     ⟨"avatars/".toList, "/x".toList, by decide,
      Or.inr ⟨"avatars".toList, by decide⟩, Or.inr ⟨"x".toList, by decide⟩⟩,
   (delete_avatar_file_guard (MediaFs.mk [("avatars/a.jpg", [7])] ["avatars"])
      "avatars/b.jpg").2.2.1 (by decide) (by decide) (by decide),
   (delete_avatar_file_guard (MediaFs.mk [("avatars/a.jpg", [7])] ["avatars"])
      "avatars").2.2.2 (by decide) (by decide) (by decide)⟩

/-- C10: the avatar read path rejects the empty path and every path
    containing a parent-directory segment, and on those inputs its result
    does not depend on the filesystem at all: the rejection happens before
    any filesystem access. -/
theorem get_avatar_file_data_guard (fs fs2 : MediaFs) (p : String) :
    (HybridAvatarManager.get_avatar_file_data fs "" =
      Except.error "Avatar path is empty") ∧
    (hasParentSegment p →
      HybridAvatarManager.get_avatar_file_data fs p =
        Except.error "Invalid avatar path") ∧
    ((p = "" ∨ hasParentSegment p) →
      HybridAvatarManager.get_avatar_file_data fs p =
        HybridAvatarManager.get_avatar_file_data fs2 p) := by
  have kernel : ∀ fs3 : MediaFs, ∀ q : String, hasParentSegment q →
      HybridAvatarManager.get_avatar_file_data fs3 q =
        Except.error "Invalid avatar path" := by
    intro fs3 q hq
    have hne : q ≠ "" := by
      intro h
      subst h
      obtain ⟨pre, post, hsplit, -, -⟩ := hq
      simp at hsplit
    have hdd := containsDotDot_of_parentSegment q hq
    simp [HybridAvatarManager.get_avatar_file_data, hne, hdd]
  refine ⟨by simp [HybridAvatarManager.get_avatar_file_data], kernel fs p, ?_⟩
  intro hor
  cases hor with
  | inl h =>
      subst h
      simp [HybridAvatarManager.get_avatar_file_data]
  | inr h => rw [kernel fs p h, kernel fs2 p h]

/-- Witness for C10: the guards evaluated on two different concrete media
    trees. -/
theorem get_avatar_file_data_guard_witness :
    (HybridAvatarManager.get_avatar_file_data
        (MediaFs.mk [("avatars/a.jpg", [7])] ["avatars"]) "" =
      Except.error "Avatar path is empty") ∧
    (HybridAvatarManager.get_avatar_file_data
        (MediaFs.mk [("avatars/a.jpg", [7])] ["avatars"]) "avatars/../x" =
      Except.error "Invalid avatar path") ∧
    (HybridAvatarManager.get_avatar_file_data
        (MediaFs.mk [("avatars/a.jpg", [7])] ["avatars"]) "avatars/../x" =
      HybridAvatarManager.get_avatar_file_data (MediaFs.mk [] []) "avatars/../x") :=
  ⟨(get_avatar_file_data_guard (MediaFs.mk [("avatars/a.jpg", [7])] ["avatars"])
      (MediaFs.mk [] []) "avatars/../x").1,
   (get_avatar_file_data_guard (MediaFs.mk [("avatars/a.jpg", [7])] ["avatars"])
      (MediaFs.mk [] []) "avatars/../x").2.1
     ⟨"avatars/".toList, "/x".toList, by decide,
      Or.inr ⟨"avatars".toList, by decide⟩, Or.inr ⟨"x".toList, by decide⟩⟩,
   (get_avatar_file_data_guard (MediaFs.mk [("avatars/a.jpg", [7])] ["avatars"])
      (MediaFs.mk [] []) "avatars/../x").2.2
     (Or.inr ⟨"avatars/".toList, "/x".toList, by decide,
      Or.inr ⟨"avatars".toList, by decide⟩, Or.inr ⟨"x".toList, by decide⟩⟩)⟩

/-! ## Hybrid avatar manager (hybrid_avatar.rs) -/

/-- Combined state the hybrid avatar manager works on: the live database and
    the media tree. -/
structure SysState where
  db : DbState
  fs : MediaFs
deriving DecidableEq, Repr

/-- The result record returned by the avatar operations. -/
structure HybridAvatarInfo where
  user_id : Int
  avatar_path : Option String
  avatar_updated_at : Option String
  avatar_mime : Option String
  avatar_size : Option Int
  file_exists : Bool
deriving DecidableEq, Repr

/-- The WHERE id = ? row test used by every per-user statement. -/
def idMatches (uid : Int) (u : UserRow) : Bool :=
  u.id == uid

/-- Clearing of the four avatar columns of one row, as performed by the
    UPDATE statement of delete_avatar. -/
def clearAvatarFields (u : UserRow) : UserRow :=
  { u with avatar_path := none, avatar_updated_at := none,
           avatar_mime := none, avatar_size := none }

/-- Row updater of the WHERE id clause of delete_avatar. -/
def clearIf (uid : Int) (u : UserRow) : UserRow :=
  if u.id == uid then clearAvatarFields u else u

/-- get_user_avatar_path (hybrid_avatar.rs 72-82): opens the database via
    get_connection (the creating open), then reads the avatar_path column of
    the row. -/
def HybridAvatarManager.get_user_avatar_path (s : SysState) (user_id : Int) :
    SysState × Except String (Option String) :=
  match get_connection s.db with
  | (db2, Except.error _) =>
      ({ s with db := db2 }, Except.error "Failed to connect to database")
  | (db2, Except.ok _) =>
      if db2.tables.contains "users" then
        match db2.users.find? (idMatches user_id) with
        | some u => ({ s with db := db2 }, Except.ok u.avatar_path)
        | none =>
            ({ s with db := db2 },
             Except.error "Failed to get avatar path: query returned no rows")
      else
        ({ s with db := db2 },
         Except.error "Failed to get avatar path: no such table: users")

/-- get_user_avatar_info (hybrid_avatar.rs 84-108): opens via
    get_connection, reads the four avatar columns and probes the filesystem
    for the file_exists flag. -/
def HybridAvatarManager.get_user_avatar_info (s : SysState) (user_id : Int) :
    SysState × Except String HybridAvatarInfo :=
  match get_connection s.db with
  | (db2, Except.error _) =>
      ({ s with db := db2 }, Except.error "Failed to connect to database")
  | (db2, Except.ok _) =>
      if db2.tables.contains "users" then
        match db2.users.find? (idMatches user_id) with
        | some u =>
            let fe : Bool :=
              match u.avatar_path with
              | some p => s.fs.onDisk p
              | none => false
            ({ s with db := db2 },
             Except.ok
               { user_id := user_id, avatar_path := u.avatar_path,
                 avatar_updated_at := u.avatar_updated_at,
                 avatar_mime := u.avatar_mime, avatar_size := u.avatar_size,
                 file_exists := fe })
        | none =>
            ({ s with db := db2 },
             Except.error "Failed to get user avatar info: query returned no rows")
      else
        ({ s with db := db2 },
         Except.error "Failed to get user avatar info: no such table: users")

/-- save_avatar (hybrid_avatar.rs 26-70): opens via get_connection, verifies
    the user exists, best-effort deletes the previously referenced file,
    writes the new file, and updates the four avatar columns. The unix
    timestamp and the rfc3339 instant are passed in. -/
def HybridAvatarManager.save_avatar (s : SysState) (user_id : Int)
    (file_data : List Nat) (mime_type : String) (now : Nat)
    (updated_at : String) : SysState × Except String HybridAvatarInfo :=
  match get_connection s.db with
  | (db2, Except.error _) =>
      ({ s with db := db2 }, Except.error "Failed to connect to database")
  | (db2, Except.ok _) =>
      if db2.tables.contains "users" then
        if (db2.users.filter (idMatches user_id)).length == 0 then
          ({ s with db := db2 },
           Except.error ("User with ID " ++ toString user_id ++ " does not exist"))
        else
          let oldPath : Option String :=
            match db2.users.find? (idMatches user_id) with
            | some u => u.avatar_path
            | none => none
          let fs1 : MediaFs :=
            match oldPath with
            | some p => (FileManager.delete_avatar_file s.fs p).1
            | none => s.fs
          let saved := FileManager.save_avatar_file fs1 user_id file_data mime_type now
          let fileSize : Int := Int.ofNat file_data.length
          let users2 := db2.users.map (fun u =>
            if u.id == user_id then
              { u with avatar_path := some saved.2,
                       avatar_updated_at := some updated_at,
                       avatar_mime := some mime_type,
                       avatar_size := some fileSize }
            else u)
          ({ db := { db2 with users := users2 }, fs := saved.1 },
           Except.ok
             { user_id := user_id, avatar_path := some saved.2,
               avatar_updated_at := some updated_at,
               avatar_mime := some mime_type, avatar_size := some fileSize,
               file_exists := true })
      else
        ({ s with db := db2 },
         Except.error "Failed to check user existence: no such table: users")

/-- delete_avatar (hybrid_avatar.rs 110-198): opens via get_connection,
    verifies the user exists, reads the avatar path, best-effort deletes the
    file (up to three attempts whose failures are logged and swallowed; a
    single application of the idempotent delete models the loop), then
    clears the four avatar columns; SQLite reports every row matched by the
    WHERE clause as updated. -/
def HybridAvatarManager.delete_avatar (s : SysState) (user_id : Int) :
    SysState × Except String Bool :=
  match get_connection s.db with
  | (db2, Except.error _) =>
      ({ s with db := db2 }, Except.error "Failed to connect to database")
  | (db2, Except.ok _) =>
      if db2.tables.contains "users" then
        if (db2.users.filter (idMatches user_id)).length == 0 then
          ({ s with db := db2 },
           Except.error ("User with ID " ++ toString user_id ++ " does not exist"))
        else
          let avatarPath : Option String :=
            match db2.users.find? (idMatches user_id) with
            | some u => u.avatar_path
            | none => none
          let fs2 : MediaFs :=
            match avatarPath with
            | some p => if p = "" then s.fs else (FileManager.delete_avatar_file s.fs p).1
            | none => s.fs
          let users2 := db2.users.map (clearIf user_id)
          if 0 < (db2.users.filter (idMatches user_id)).length then
            ({ db := { db2 with users := users2 }, fs := fs2 }, Except.ok true)
          else
            ({ db := { db2 with users := users2 }, fs := fs2 },
             Except.error ("No user record was updated for user_id " ++ toString user_id))
      else
        ({ s with db := db2 },
         Except.error "Failed to verify user existence: no such table: users")

/-- cleanup_orphaned_files (hybrid_avatar.rs 254-270): opens via
    get_connection, collects every non-null avatar path of the users table
    and delegates to the media store sweep over the files directly under the
    avatars directory. -/
def HybridAvatarManager.cleanup_orphaned_files (s : SysState) :
    SysState × Except String Nat :=
  match get_connection s.db with
  | (db2, Except.error _) =>
      ({ s with db := db2 }, Except.error "Failed to connect to database")
  | (db2, Except.ok _) =>
      if db2.tables.contains "users" then
        let valid := db2.users.filterMap (fun u => u.avatar_path)
        let entries := (s.fs.files.map Prod.fst).filter
          (fun p => startsList "avatars/".toList p.toList &&
            !((p.toList.drop 8).contains (Char.ofNat 47)))
        let swept := FileManager.cleanup_orphaned_files entries valid
        let files2 := s.fs.files.filter
          (fun f => !(entries.contains f.1) || swept.1.contains f.1)
        ({ db := db2, fs := { s.fs with files := files2 } },
         Except.ok swept.2)
      else
        ({ s with db := db2 },
         Except.error "Failed to query avatar paths: no such table: users")

/-- C1 (refuted by the code): the claim says every ordinary operation of
    HybridAvatarManager opens the database in Guarded mode, so an absent
    database file is never created mid-session. The code instead opens every
    one of the five operations via get_connection, the creating open:
    starting from a session in which the database file is absent, each
    operation leaves behind a freshly created empty database file. -/
theorem hybrid_avatar_ops_fabricate_db_file :
    ((HybridAvatarManager.save_avatar
        (SysState.mk (DbState.mk DbFile.absent [] []) (MediaFs.mk [] []))
        1 [0] "image/png" 0 "t").1.db.file = DbFile.present 0) ∧
    ((HybridAvatarManager.get_user_avatar_path
        (SysState.mk (DbState.mk DbFile.absent [] []) (MediaFs.mk [] []))
        1).1.db.file = DbFile.present 0) ∧
    ((HybridAvatarManager.get_user_avatar_info
        (SysState.mk (DbState.mk DbFile.absent [] []) (MediaFs.mk [] []))
        1).1.db.file = DbFile.present 0) ∧
    ((HybridAvatarManager.delete_avatar
        (SysState.mk (DbState.mk DbFile.absent [] []) (MediaFs.mk [] []))
        1).1.db.file = DbFile.present 0) ∧
    ((HybridAvatarManager.cleanup_orphaned_files
        (SysState.mk (DbState.mk DbFile.absent [] []) (MediaFs.mk [] []))).1.db.file
      = DbFile.present 0) :=
  ⟨rfl, rfl, rfl, rfl, rfl⟩

/-- The row updater of delete_avatar does not change the row id. -/
theorem clearIf_id (uid : Int) (u : UserRow) : (clearIf uid u).id = u.id := by
  unfold clearIf
  split <;> rfl

/-- Row existence is invariant under the clearing update. -/
theorem any_map_clearIf (l : List UserRow) (uid : Int) :
    (l.map (clearIf uid)).any (idMatches uid) = l.any (idMatches uid) := by
  induction l with
  | nil => rfl
  | cons u t ih => simp [idMatches, clearIf_id, ih]

/-- All rows matching the id have the four avatar columns null. -/
def avatarFieldsCleared (uid : Int) (l : List UserRow) : Bool :=
  l.all (fun u => !(idMatches uid u) ||
    (u.avatar_path == none && u.avatar_updated_at == none &&
     u.avatar_mime == none && u.avatar_size == none))

/-- After the clearing update, every row matching the id has null avatar
    columns. -/
theorem cleared_map_clearIf (l : List UserRow) (uid : Int) :
    avatarFieldsCleared uid (l.map (clearIf uid)) = true := by
  induction l with
  | nil => rfl
  | cons u t ih =>
      by_cases h : u.id = uid
      · simp only [avatarFieldsCleared, List.map_cons, List.all_cons] at ih ⊢
        rw [ih]
        simp [clearIf, clearAvatarFields, idMatches, h]
      · simp only [avatarFieldsCleared, List.map_cons, List.all_cons] at ih ⊢
        rw [ih]
        simp [clearIf, clearAvatarFields, idMatches, h]

/-- One successful run of delete_avatar: outcome and database effect. -/
theorem delete_avatar_run (s : SysState) (uid : Int) (n : Nat)
    (hfile : s.db.file = DbFile.present n)
    (htab : s.db.tables.contains "users" = true)
    (hex : s.db.users.any (idMatches uid) = true) :
    (HybridAvatarManager.delete_avatar s uid).2 = Except.ok true ∧
    (HybridAvatarManager.delete_avatar s uid).1.db.file = DbFile.present n ∧
    (HybridAvatarManager.delete_avatar s uid).1.db.tables = s.db.tables ∧
    (HybridAvatarManager.delete_avatar s uid).1.db.users =
      s.db.users.map (clearIf uid) := by
  obtain ⟨⟨f, tabs, users⟩, fs⟩ := s
  simp only at hfile htab hex
  subst hfile
  have htabm : "users" ∈ tabs := by simpa using htab
  have hcnt : 0 < (users.filter (idMatches uid)).length := by
    rcases List.any_eq_true.mp hex with ⟨u, hu, hpu⟩
    exact List.length_pos.mpr
      (List.ne_nil_of_mem (List.mem_filter.mpr ⟨hu, hpu⟩))
  have hne : (users.filter (idMatches uid)).length ≠ 0 :=
    Nat.pos_iff_ne_zero.mp hcnt
  simp [HybridAvatarManager.delete_avatar, get_connection, htabm, hne, hcnt]

/-- C9: avatar delete is idempotent on an existing entity: the first and the
    second call both return Ok true, and after each call every row of the
    entity has all four avatar columns null. -/
theorem delete_avatar_idempotent (s : SysState) (uid : Int) (n : Nat)
    (hfile : s.db.file = DbFile.present n)
    (htab : s.db.tables.contains "users" = true)
    (hex : s.db.users.any (idMatches uid) = true) :
    (HybridAvatarManager.delete_avatar s uid).2 = Except.ok true ∧
    (HybridAvatarManager.delete_avatar
      (HybridAvatarManager.delete_avatar s uid).1 uid).2 = Except.ok true ∧
    avatarFieldsCleared uid
      (HybridAvatarManager.delete_avatar s uid).1.db.users = true ∧
    avatarFieldsCleared uid
      (HybridAvatarManager.delete_avatar
        (HybridAvatarManager.delete_avatar s uid).1 uid).1.db.users = true := by
  obtain ⟨h1, h2, h3, h4⟩ := delete_avatar_run s uid n hfile htab hex
  have htab2 : (HybridAvatarManager.delete_avatar s uid).1.db.tables.contains
      "users" = true := by rw [h3]; exact htab
  have hex2 : (HybridAvatarManager.delete_avatar s uid).1.db.users.any
      (idMatches uid) = true := by rw [h4, any_map_clearIf]; exact hex
  obtain ⟨g1, -, -, g4⟩ :=
    delete_avatar_run (HybridAvatarManager.delete_avatar s uid).1 uid n h2 htab2 hex2
  refine ⟨h1, g1, ?_, ?_⟩
  · rw [h4]
    exact cleared_map_clearIf _ _
  · rw [g4]
    exact cleared_map_clearIf _ _

/-- Witness for C9: a concrete user with an avatar, deleted twice. -/
theorem delete_avatar_idempotent_witness :
    ((SysState.mk
        (DbState.mk (DbFile.present 5) ["users"]
          [UserRow.mk 7 (some "avatars/avatar_7_1000.png") (some "t")
            (some "image/png") (some 3)])
        (MediaFs.mk [("avatars/avatar_7_1000.png", [1, 2, 3])] ["avatars"])).db.file
        = DbFile.present 5 ∧
      (SysState.mk
        (DbState.mk (DbFile.present 5) ["users"]
          [UserRow.mk 7 (some "avatars/avatar_7_1000.png") (some "t")
            (some "image/png") (some 3)])
        (MediaFs.mk [("avatars/avatar_7_1000.png", [1, 2, 3])] ["avatars"])).db.tables.contains
        "users" = true) ∧
    ((HybridAvatarManager.delete_avatar
        (SysState.mk
          (DbState.mk (DbFile.present 5) ["users"]
            [UserRow.mk 7 (some "avatars/avatar_7_1000.png") (some "t")
              (some "image/png") (some 3)])
          (MediaFs.mk [("avatars/avatar_7_1000.png", [1, 2, 3])] ["avatars"])) 7).2
        = Except.ok true ∧
      (HybridAvatarManager.delete_avatar
        (HybridAvatarManager.delete_avatar
          (SysState.mk
            (DbState.mk (DbFile.present 5) ["users"]
              [UserRow.mk 7 (some "avatars/avatar_7_1000.png") (some "t")
                (some "image/png") (some 3)])
            (MediaFs.mk [("avatars/avatar_7_1000.png", [1, 2, 3])] ["avatars"])) 7).1 7).2
        = Except.ok true) :=
  ⟨⟨rfl, by decide⟩,
   (delete_avatar_idempotent
      (SysState.mk
        (DbState.mk (DbFile.present 5) ["users"]
          [UserRow.mk 7 (some "avatars/avatar_7_1000.png") (some "t")
            (some "image/png") (some 3)])
        (MediaFs.mk [("avatars/avatar_7_1000.png", [1, 2, 3])] ["avatars"]))
      7 5 rfl (by decide) (by decide)).1,
   (delete_avatar_idempotent
      (SysState.mk
        (DbState.mk (DbFile.present 5) ["users"]
          [UserRow.mk 7 (some "avatars/avatar_7_1000.png") (some "t")
            (some "image/png") (some 3)])
        (MediaFs.mk [("avatars/avatar_7_1000.png", [1, 2, 3])] ["avatars"]))
      7 5 rfl (by decide) (by decide)).2.1⟩

/-! ## Logical backup (database_backup.rs) -/

namespace DatabaseBackup

/-- Path of the database file the logical backup module opens, as segments
    under the app data directory (database_backup.rs 253-259). -/
def database_path : List String := ["pqs-rtn-tauri", "database.db"]

/-- Path of the backup directory of the logical backup module, as segments
    under the app data directory (database_backup.rs 238-251). -/
def backup_directory : List String := ["pqs-rtn-tauri", "backups"]

end DatabaseBackup

namespace Database

/-- Path of the live database file used by the connection guard and all
    ordinary operations, as segments under the app data directory
    (database.rs 53-62). -/
def database_path : List String := ["pqs-rtn-hybrid-storage", "database.db"]

end Database

namespace HybridBackup

/-- Path of the database file used by the archive backup module, as
    segments under the app data directory (hybrid_backup.rs 372-378). -/
def database_path : List String := ["pqs-rtn-hybrid-storage", "database.db"]

end HybridBackup

/-- C4 (refuted by the code): the logical backup module resolves the
    database under the stale pqs-rtn-tauri directory, while the connection
    guard and the ordinary operations live under pqs-rtn-hybrid-storage, so
    create_backup and restore_backup do not read or write the live database
    file (the archive backup module, by contrast, does use the live path). -/
theorem logical_backup_path_mismatch :
    DatabaseBackup.database_path ≠ Database.database_path ∧
    DatabaseBackup.database_path = ["pqs-rtn-tauri", "database.db"] ∧
    Database.database_path = ["pqs-rtn-hybrid-storage", "database.db"] ∧
    HybridBackup.database_path = Database.database_path := by
  refine ⟨?_, rfl, rfl, rfl⟩
  decide

/-- Tables created by the one-time database initializer (database.rs
    297-343): CREATE TABLE IF NOT EXISTS users and high_ranking_officers.
    No other code path in the repository creates a table. -/
def initTables : List String := ["users", "high_ranking_officers"]

/-- The DELETE FROM statements issued by restore_backup before reinserting
    any row, in program order (database_backup.rs 127-134). -/
def restoreClearList : List String :=
  ["high_ranking_avatars", "high_ranking_officers", "avatars", "users"]

/-- One DELETE FROM t statement: fails when the schema has no table t. -/
def execDeleteFrom (tables : List String) (t : String) : Except String Unit :=
  if tables.contains t then Except.ok ()
  else Except.error ("Failed to clear " ++ t ++ ": no such table: " ++ t)

/-- Sequential execution of the DELETE statements; the first failure aborts
    the transaction and is returned. -/
def clearPhase (tables : List String) : List String → Except String Unit
  | [] => Except.ok ()
  | t :: ts =>
      match execDeleteFrom tables t with
      | Except.ok _ => clearPhase tables ts
      | Except.error e => Except.error e

/-- The clearing stage of restore_backup on a store with the given schema.
    It runs before any table is recreated or any row inserted, so its
    failure is the failure of the whole restore. -/
def restore_backup_clears (tables : List String) : Except String Unit :=
  clearPhase tables restoreClearList

/-- C2 (refuted by the code): the restore half of the round trip cannot
    succeed on any store this application creates: the schema holds only
    users and high_ranking_officers, and the very first clearing statement
    of restore_backup addresses the removed table high_ranking_avatars, so
    the transaction aborts with a no-such-table error before any row is
    restored. -/
theorem restore_backup_fails_on_created_schema :
    restore_backup_clears initTables =
      Except.error
        "Failed to clear high_ranking_avatars: no such table: high_ranking_avatars" ∧
    initTables.contains "high_ranking_avatars" = false ∧
    initTables.contains "avatars" = false := by
  refine ⟨rfl, by decide, by decide⟩

/-! ## Archive backup (hybrid_backup.rs) -/

/-- The two files import_backup touches once staging succeeded: the live
    database file contents and the .backup sidecar contents. The media
    replacement happens after the database replacement and is outside this
    stage. -/
structure ImportState where
  liveDb : Option (List Nat)
  sidecar : Option (List Nat)
deriving DecidableEq, Repr

/-- The database-replacement stage of import_backup (hybrid_backup.rs
    274-283): when the current database file exists it is copied to the
    sidecar, whatever its size; a failing copy aborts with an error before
    the live file is overwritten; then the staged database overwrites the
    live file. copyOk tells whether the filesystem copy of the safety net
    succeeds. -/
def import_backup_db_stage (st : ImportState) (staged : List Nat)
    (copyOk : Bool) : ImportState × Except String Unit :=
  match st.liveDb with
  | some cur =>
      if copyOk then
        ({ liveDb := some staged, sidecar := some cur }, Except.ok ())
      else
        (st, Except.error "Failed to backup current database")
  | none => ({ st with liveDb := some staged }, Except.ok ())

/-- C7 counterexample: the claim says the safety copy is made if and only
    if the current live database file is non-empty; the code makes it
    whenever the file exists, so a zero-byte live database is still copied
    to the sidecar. -/
theorem import_backup_copies_empty_live_db :
    (import_backup_db_stage (ImportState.mk (some []) none) [1] true).1.sidecar
        = some [] ∧
    (import_backup_db_stage (ImportState.mk (some []) none) [1] true).2
        = Except.ok () := by
  exact ⟨rfl, rfl⟩

/-- C7 as amended: the safety copy to the .backup sidecar is made if and
    only if the current live database file exists (whatever its size);
    it happens before the staged file overwrites the live one, and when the
    safety copy fails the stage returns an error with the live database
    file unchanged. -/
theorem import_backup_db_stage_spec (st : ImportState) (staged cur : List Nat)
    (copyOk : Bool) :
    (st.liveDb = some cur → copyOk = true →
      import_backup_db_stage st staged copyOk =
        ({ liveDb := some staged, sidecar := some cur }, Except.ok ())) ∧
    (st.liveDb = some cur → copyOk = false →
      import_backup_db_stage st staged copyOk =
        (st, Except.error "Failed to backup current database")) ∧
    (st.liveDb = none →
      import_backup_db_stage st staged copyOk =
        ({ liveDb := some staged, sidecar := st.sidecar }, Except.ok ())) := by
  obtain ⟨live, side⟩ := st
  refine ⟨?_, ?_, ?_⟩
  · intro h hc
    cases h
    cases hc
    rfl
  · intro h hc
    cases h
    cases hc
    rfl
  · intro h
    cases h
    rfl

/-- Witness for C7: the three cases of the amended statement at concrete
    states. -/
theorem import_backup_db_stage_spec_witness :
    (import_backup_db_stage (ImportState.mk (some [0]) none) [1] true =
      (ImportState.mk (some [1]) (some [0]), Except.ok ())) ∧
    (import_backup_db_stage (ImportState.mk (some [0]) none) [1] false =
      (ImportState.mk (some [0]) none,
       Except.error "Failed to backup current database")) ∧
    (import_backup_db_stage (ImportState.mk none (some [9])) [1] false =
      (ImportState.mk (some [1]) (some [9]), Except.ok ())) :=
  ⟨(import_backup_db_stage_spec (ImportState.mk (some [0]) none) [1] [0] true).1
     rfl rfl,
   (import_backup_db_stage_spec (ImportState.mk (some [0]) none) [1] [0] false).2.1
     rfl rfl,
   (import_backup_db_stage_spec (ImportState.mk none (some [9])) [1] [0] false).2.2
     rfl⟩

/-- The manifest written into every archive (hybrid_backup.rs 15-24). -/
structure BackupManifest where
  version : String
  timestamp : Nat
  database_size : Nat
  media_size : Nat
  total_files : Nat
  backup_type : String
  checksum : String
deriving DecidableEq, Repr

/-- One entry of the finalized zip archive: name and uncompressed bytes. -/
structure ZipEntry where
  name : String
  data : List Nat
deriving DecidableEq, Repr

/-- Everything create_hybrid_backup produces: the finalized archive in entry
    order, the manifest it sealed inside, the checksum computed from the
    finalized archive, and the summary string it returns. -/
structure HybridBackupOutcome where
  archive : List ZipEntry
  manifest : BackupManifest
  computed_checksum : String
  summary : String
deriving DecidableEq, Repr

/-- create_hybrid_backup (hybrid_backup.rs 27-168). Inputs: the live
    database bytes when the file exists, the media files as media-root
    relative path and bytes, the unix timestamp, an abstract manifest
    serializer and an abstract whole-file digest standing for hex-encoded
    SHA-256 of the zip bytes. The manifest goes into the archive with an
    empty checksum field before the zip is finished; the digest is computed
    from the finished archive; the returned summary is built from the file
    count and the byte sizes only, and the digest is dropped. -/
def create_hybrid_backup (dbFile : Option (List Nat))
    (media : List (String × List Nat)) (timestamp : Nat)
    (ser : BackupManifest → List Nat) (digest : List ZipEntry → String) :
    HybridBackupOutcome :=
  let dbEntries : List ZipEntry :=
    match dbFile with
    | some bytes => [{ name := "database.db", data := bytes }]
    | none => []
  let database_size : Nat :=
    match dbFile with
    | some bytes => bytes.length
    | none => 0
  let mediaEntries : List ZipEntry :=
    media.map (fun f => { name := "media/" ++ f.1, data := f.2 })
  let media_size : Nat := (media.map (fun f => f.2.length)).sum
  let total_files : Nat := dbEntries.length + media.length
  let manifest : BackupManifest :=
    { version := "1.0", timestamp := timestamp, database_size := database_size,
      media_size := media_size, total_files := total_files,
      backup_type := "hybrid", checksum := "" }
  let archive : List ZipEntry :=
    dbEntries ++ mediaEntries ++ [{ name := "manifest.json", data := ser manifest }]
  { archive := archive, manifest := manifest,
    computed_checksum := digest archive,
    summary := "Hybrid backup created: hybrid_backup_" ++ toString timestamp ++
      ".zip (Files: " ++ toString total_files ++ ", Size: " ++
      toString (database_size + media_size) ++ " bytes)" }

/-- C8 counterexample: the claim says the post-finalization checksum is
    included in the returned summary. With a digest returning the fixed
    string 0a1b2c3d on a concrete backup, the computed checksum is 0a1b2c3d
    yet that string occurs nowhere in the returned summary. -/
theorem hybrid_backup_checksum_absent_from_summary :
    (create_hybrid_backup (some [1]) [] 5 (fun _ => [])
        (fun _ => "0a1b2c3d")).computed_checksum = "0a1b2c3d" ∧
    containsSeq "0a1b2c3d".toList
      ((create_hybrid_backup (some [1]) [] 5 (fun _ => [])
        (fun _ => "0a1b2c3d")).summary).toList = false := by
  refine ⟨rfl, by decide⟩

/-- C8 as amended: the whole-archive checksum is computed only from the
    finalized archive, whose sealed manifest carries an empty checksum
    field; the checksum is then discarded: the returned summary is built
    from the counts and sizes alone and does not depend on the digest at
    all. -/
theorem create_hybrid_backup_checksum_spec (dbFile : Option (List Nat))
    (media : List (String × List Nat)) (timestamp : Nat)
    (ser : BackupManifest → List Nat)
    (digest digest2 : List ZipEntry → String) :
    (create_hybrid_backup dbFile media timestamp ser digest).manifest.checksum = "" ∧
    (create_hybrid_backup dbFile media timestamp ser digest).computed_checksum =
      digest (create_hybrid_backup dbFile media timestamp ser digest).archive ∧
    ZipEntry.mk "manifest.json"
        (ser (create_hybrid_backup dbFile media timestamp ser digest).manifest) ∈
      (create_hybrid_backup dbFile media timestamp ser digest).archive ∧
    (create_hybrid_backup dbFile media timestamp ser digest2).summary =
      (create_hybrid_backup dbFile media timestamp ser digest).summary := by
  refine ⟨rfl, rfl, ?_, rfl⟩
  simp [create_hybrid_backup]

end HybridStorage
